import Mathlib

/-!
Verification of the video-alert repository: shallow embedding of the
frontend admin code (system-variables API client and page) and of the
crawl-schedule execution pipeline described by the specification
(the pipeline itself has no implementation under the repository's
source tree; its definitions below are modelled from the spec).
-/

namespace VideoAlert

/-! ## System-variables admin code (frontend/src/lib) -/

/-- One system variable as returned by the backend API
(`SystemVariableDetailSchema` in the Zod schemas file). -/
structure SystemVariableDetail where
  value : Option String
  is_set : Bool
  hint : String
deriving Repr, DecidableEq

/-- The complete system-variables API response
(`SystemVariablesResponseSchema`). -/
structure SystemVariablesResponse where
  monitored_video_page_url : SystemVariableDetail
  telegram_channel_id : SystemVariableDetail
  telegram_bot_token : SystemVariableDetail
deriving Repr, DecidableEq

/-- The `type` field of a UI system variable: "text" or "password". -/
inductive VarType where
  | text
  | password
deriving Repr, DecidableEq

/-- UI representation of a system variable (interface `SystemVariable`
in the API client file). -/
structure SystemVariable where
  label : String
  value : Option String
  configured : Bool
  type : VarType
deriving Repr, DecidableEq

/-- `transformToUIFormat` from the API client: transforms the backend
response into the fixed three-entry UI list. -/
def transformToUIFormat (response : SystemVariablesResponse) :
    List SystemVariable :=
  [ { label := "Monitoring Video Page URL"
      value := response.monitored_video_page_url.value
      configured := response.monitored_video_page_url.is_set
      type := .text },
    { label := "Telegram Channel ID"
      value := response.telegram_channel_id.value
      configured := response.telegram_channel_id.is_set
      type := .text },
    { label := "Telegram Bot Token"
      value := response.telegram_bot_token.value
      configured := response.telegram_bot_token.is_set
      type := .password } ]

/-- The error class `SystemVariablesAPIError` (message plus optional
HTTP status code). -/
structure SystemVariablesAPIError where
  message : String
  statusCode : Option Nat
deriving Repr, DecidableEq

/-- Outcome of one effectful step of the client: either a value or a
thrown JavaScript `Error` carrying a message. -/
inductive StepResult (α : Type) where
  | ok (a : α)
  | throw (msg : String)
deriving Repr, DecidableEq

/-- The `fetch` response as `fetchSystemVariables` observes it:
`ok`, `status`, `statusText`, and the outcome of `response.json()`
(which may itself throw). `J` is the type of parsed JSON bodies. -/
structure HttpResponse (J : Type) where
  ok : Bool
  status : Nat
  statusText : String
  json : StepResult J
deriving Repr

/-- `fetchSystemVariables` from the API client, with the network fetch
outcome and the Zod `SystemVariablesResponseSchema.parse` function
supplied by the environment. Mirrors the try/catch structure: a non-ok
response raises `SystemVariablesAPIError` with the status code (rethrown
unchanged by the catch); any other thrown `Error` (network failure, JSON
parse, schema validation) is wrapped into a `SystemVariablesAPIError`
without a status code. -/
def fetchSystemVariables {J : Type} (fetchResult : StepResult (HttpResponse J))
    (parse : J → StepResult SystemVariablesResponse) :
    Except SystemVariablesAPIError (List SystemVariable) :=
  match fetchResult with
  | .throw msg =>
      .error ⟨"Failed to fetch system variables: " ++ msg, none⟩
  | .ok response =>
      if response.ok then
        match response.json with
        | .throw msg =>
            .error ⟨"Failed to fetch system variables: " ++ msg, none⟩
        | .ok j =>
            match parse j with
            | .throw msg =>
                .error ⟨"Failed to fetch system variables: " ++ msg, none⟩
            | .ok validatedData => .ok (transformToUIFormat validatedData)
      else
        .error ⟨"API request failed: " ++ response.statusText,
                some response.status⟩

/-- `togglePasswordVisibility` from the system-variables page: copies
the previous set and either deletes the index (if present) or adds it. -/
def togglePasswordVisibility (prev : Finset ℕ) (index : ℕ) : Finset ℕ :=
  if index ∈ prev then prev.erase index else insert index prev

end VideoAlert

namespace VideoAlert

/-! ## Spec-modelled crawl-schedule pipeline: Schedule Store -/

/-- Errors of the Schedule Store operations (spec §7 taxonomy,
restricted to the store: `ValidationError` and `ConflictError`). -/
inductive StoreError where
  | validation
  | conflict
deriving Repr, DecidableEq

/-- A crawl Schedule (spec §3): identity, target URL, interval,
`is_active` flag, creation timestamp. Intervals are integers so that a
non-positive interval can be submitted and rejected. -/
structure Schedule where
  id : Nat
  url : String
  interval : Int
  is_active : Bool
  createdAt : Nat
deriving Repr, DecidableEq

/-- The Schedule Store: the durable set of schedules (active and
history) plus the next fresh identity. -/
structure ScheduleStore where
  schedules : List Schedule
  nextId : Nat
deriving Repr, DecidableEq

/-- Number of schedules whose `is_active` flag is set. -/
def countActive (st : ScheduleStore) : Nat :=
  st.schedules.countP (·.is_active)

/-- The single-active invariant: at most one Schedule has
`is_active = true`, system-wide. -/
abbrev SingleActive (st : ScheduleStore) : Prop := countActive st ≤ 1

/-- The empty Schedule Store. -/
def emptyStore : ScheduleStore := ⟨[], 0⟩

/-- Modelled from the spec: `activate(url_source, interval)` of the
Schedule Store (§4.1, missing from the source tree). Fails with
`ConflictError` if any Schedule is already active; fails with
`ValidationError` if the interval is not a positive duration; otherwise
creates a Schedule with `is_active = true` in one atomic check-and-set.
On failure the store is returned unchanged. -/
def activate (st : ScheduleStore) (url : String) (interval : Int)
    (now : Nat) : ScheduleStore × Except StoreError Schedule :=
  if st.schedules.any (·.is_active) then
    (st, .error .conflict)
  else if interval ≤ 0 then
    (st, .error .validation)
  else
    let s : Schedule := ⟨st.nextId, url, interval, true, now⟩
    (⟨s :: st.schedules, st.nextId + 1⟩, .ok s)

/-- Modelled from the spec: `deactivate(schedule_id)` (§4.1, missing
from the source tree). Sets `is_active = false` for the target;
idempotent no-op success if already inactive or absent. -/
def deactivate (st : ScheduleStore) (sid : Nat) : ScheduleStore :=
  ⟨st.schedules.map (fun s =>
      if s.id = sid then { s with is_active := false } else s),
    st.nextId⟩

/-- Modelled from the spec: `delete_history(schedule_id)` (§4.1,
missing from the source tree). Pure log management: fails with
`ConflictError` if the target is currently active, otherwise removes
it. On failure the store is returned unchanged. -/
def delete_history (st : ScheduleStore) (sid : Nat) :
    ScheduleStore × Except StoreError Unit :=
  if st.schedules.any (fun s => s.id == sid && s.is_active) then
    (st, .error .conflict)
  else
    (⟨st.schedules.filter (fun s => s.id ≠ sid), st.nextId⟩, .ok ())

/-! ## Spec-modelled pipeline: Deduplication & Record Store -/

/-- A raw extracted video entry (spec §4.3): title, canonical URL,
thumbnail, optional description. -/
structure RawVideoEntry where
  title : String
  canonical_url : String
  thumbnail : String
  description : Option String
deriving Repr, DecidableEq

/-- A persisted VideoRecord (spec §3). -/
structure VideoRecord where
  id : Nat
  schedule_id : Nat
  title : String
  canonical_url : String
  thumbnail : String
  description : Option String
  detectedAt : Nat
deriving Repr, DecidableEq

/-- The Record Store of VideoRecords. -/
structure RecordStore where
  records : List VideoRecord
  nextId : Nat
deriving Repr, DecidableEq

/-- Does the Record Store already contain the dedup key
(schedule id, canonical URL)? -/
def hasKey (rs : RecordStore) (sid : Nat) (url : String) : Bool :=
  rs.records.any (fun r => r.schedule_id == sid && r.canonical_url == url)

/-- The dedup-key uniqueness invariant: no two VideoRecords share
(schedule id, canonical URL). -/
abbrev UniqueKeys (rs : RecordStore) : Prop :=
  rs.records.Pairwise (fun a b =>
    ¬(a.schedule_id = b.schedule_id ∧ a.canonical_url = b.canonical_url))

/-- Modelled from the spec: `detect_new(schedule_id, entries)` of the
Deduplication & Record Store (§4.4, missing from the source tree).
Entries whose dedup key already exists are discarded silently; the rest
are persisted as new VideoRecords stamped with the current detection
timestamp, returned in extraction order. -/
def detect_new (sid now : Nat) (rs : RecordStore) :
    List RawVideoEntry → List VideoRecord × RecordStore
  | [] => ([], rs)
  | e :: rest =>
    if hasKey rs sid e.canonical_url then
      detect_new sid now rs rest
    else
      let v : VideoRecord :=
        ⟨rs.nextId, sid, e.title, e.canonical_url, e.thumbnail,
          e.description, now⟩
      let res := detect_new sid now ⟨v :: rs.records, rs.nextId + 1⟩ rest
      (v :: res.1, res.2)

/-! ## Spec-modelled pipeline: Notification Dispatcher -/

/-- NotificationRecord status (spec §3). -/
inductive NotifStatus where
  | pending
  | sent
  | failed
deriving Repr, DecidableEq

/-- A NotificationRecord (spec §3): identity, video id, owning schedule
id, status, attempt count, error detail, timestamp of last attempt. -/
structure NotificationRecord where
  id : Nat
  video_id : Nat
  schedule_id : Nat
  status : NotifStatus
  attemptCount : Nat
  errorDetail : Option String
  lastAttemptAt : Nat
deriving Repr, DecidableEq

/-- The store of NotificationRecords. -/
structure NotifStore where
  records : List NotificationRecord
  nextId : Nat
deriving Repr, DecidableEq

/-- Classified outcome of one dispatch call (spec §4.5): success,
transient failure (timeout, rate-limit, 5xx-equivalent), or permanent
failure (4xx-equivalent except rate-limit). -/
inductive DispatchResult where
  | success
  | transient (msg : String)
  | permanent (msg : String)
deriving Repr, DecidableEq

/-- The fixed maximum attempt count of the retry policy (spec §4.5). -/
def maxAttempts : Nat := 3

/-- The idempotency lookup: an existing `sent` NotificationRecord for
the video id, if any. -/
def findSent (ns : NotifStore) (vid : Nat) : Option NotificationRecord :=
  ns.records.find? (fun r => r.video_id == vid && r.status == .sent)

/-- Modelled from the spec: the bounded retry loop of the Notification
Dispatcher (§4.5, missing from the source tree). Each attempt
increments the attempt count and updates the record; success ends in
`sent`, a permanent failure ends in `failed` immediately, a transient
failure retries while attempts remain and ends in `failed` when they
are exhausted. Returns the final record and the number of dispatch
calls performed. -/
def runAttempts (dispatch : Nat → DispatchResult) (now : Nat) :
    NotificationRecord → Nat → NotificationRecord × Nat
  | r, 0 => (r, 0)
  | r, fuel + 1 =>
    let r1 := { r with attemptCount := r.attemptCount + 1,
                       lastAttemptAt := now }
    match dispatch r.attemptCount with
    | .success => ({ r1 with status := .sent }, 1)
    | .permanent msg =>
        ({ r1 with status := .failed, errorDetail := some msg }, 1)
    | .transient msg =>
        if fuel = 0 then
          ({ r1 with status := .failed, errorDetail := some msg }, 1)
        else
          let rest := runAttempts dispatch now
            { r1 with errorDetail := some msg } fuel
          (rest.1, rest.2 + 1)

/-- Modelled from the spec: `notify(video)` of the Notification
Dispatcher (§4.5, missing from the source tree). Checks for an existing
`sent` NotificationRecord for the video id first and, if present,
returns it unchanged with no dispatch; otherwise creates a fresh record
and runs the bounded retry loop. Returns the resulting record, the
updated store, and the number of dispatch calls performed. -/
def notify (video : VideoRecord) (ns : NotifStore)
    (dispatch : Nat → DispatchResult) (now : Nat) :
    NotificationRecord × NotifStore × Nat :=
  match findSent ns video.id with
  | some r => (r, ns, 0)
  | none =>
    let r0 : NotificationRecord :=
      ⟨ns.nextId, video.id, video.schedule_id, .pending, 0, none, now⟩
    let res := runAttempts dispatch now r0 maxAttempts
    (res.1, ⟨res.1 :: ns.records, ns.nextId + 1⟩, res.2)

/-! ## Spec-modelled pipeline: Execution Lock and Orchestrator -/

/-- ExecutionRecord status (spec §3). -/
inductive ExecStatus where
  | running
  | succeeded
  | failed
  | skipped
deriving Repr, DecidableEq

/-- Cause carried by an ExtractionError (spec §4.3). -/
inductive ExtractCause where
  | timeout
  | network
  | parseFailure
  | structureChanged
deriving Repr, DecidableEq

/-- An ExecutionRecord (spec §3): identity, owning schedule id, start
timestamp, end timestamp (absent while running), status, error detail
(present only for failed). -/
structure ExecutionRecord where
  id : Nat
  schedule_id : Nat
  startedAt : Nat
  endedAt : Option Nat
  status : ExecStatus
  errorDetail : Option ExtractCause
deriving Repr, DecidableEq

/-- Outcome of the Extraction Engine for one cycle (spec §4.3):
a normalized entry list or an ExtractionError with its cause (a timeout
is one of the causes). -/
inductive ExtractOutcome where
  | ok (entries : List RawVideoEntry)
  | err (cause : ExtractCause)

/-- Orchestrator system state (spec §4.7/§5): the set of schedules
whose Execution Lock is held (cycles in the LockAcquired-or-later
state), the execution log, the video Record Store, the notification
store, and the next execution identity. -/
structure SysState where
  lockedSchedules : List Nat
  execLog : List ExecutionRecord
  videoStore : RecordStore
  notifStore : NotifStore
  nextExecId : Nat

/-- Events of the orchestrator: a timer trigger for a schedule, or the
finalization of the running cycle of a schedule with its extraction
outcome (the per-video dispatch behaviour supplied by the
environment). -/
inductive Event where
  | trigger (sid : Nat) (now : Nat)
  | finish (sid : Nat) (outcome : ExtractOutcome)
      (dispatch : Nat → Nat → DispatchResult) (now : Nat)

/-- Finalize the running ExecutionRecord of a schedule with the given
terminal status and cause. -/
def finalizeRec (sid : Nat) (stat : ExecStatus)
    (cause : Option ExtractCause) (now : Nat) (r : ExecutionRecord) :
    ExecutionRecord :=
  if r.schedule_id == sid && r.status == .running then
    { r with status := stat, endedAt := some now, errorDetail := cause }
  else r

/-- Dispatch notifications for each newly detected video in extraction
order (spec §4.4/§4.5). -/
def notifyAll (dispatch : Nat → Nat → DispatchResult) (now : Nat) :
    NotifStore → List VideoRecord → NotifStore
  | ns, [] => ns
  | ns, v :: vs =>
      notifyAll dispatch now (notify v ns (dispatch v.id) now).2.1 vs

/-- Modelled from the spec: one orchestrator step (§4.7/§5, missing
from the source tree). A trigger while the schedule's cycle is still
running is admitted as a `skipped` ExecutionRecord and changes nothing
else; otherwise it acquires the lock and opens a `running` record.
Finishing a cycle with an ExtractionError finalizes the record as
`failed` with the cause and releases the lock without touching
Deduplication or Notification; finishing successfully runs
`detect_new` and notifies each new video, then finalizes `succeeded`
and releases the lock. -/
def step (st : SysState) (ev : Event) : SysState :=
  match ev with
  | .trigger sid now =>
      if sid ∈ st.lockedSchedules then
        { st with
          execLog := st.execLog ++
            [⟨st.nextExecId, sid, now, some now, .skipped, none⟩],
          nextExecId := st.nextExecId + 1 }
      else
        { st with
          lockedSchedules := sid :: st.lockedSchedules,
          execLog := st.execLog ++
            [⟨st.nextExecId, sid, now, none, .running, none⟩],
          nextExecId := st.nextExecId + 1 }
  | .finish sid outcome dispatch now =>
      if sid ∈ st.lockedSchedules then
        match outcome with
        | .err cause =>
            { st with
              lockedSchedules := st.lockedSchedules.erase sid,
              execLog := st.execLog.map
                (finalizeRec sid .failed (some cause) now) }
        | .ok entries =>
            let res := detect_new sid now st.videoStore entries
            { st with
              lockedSchedules := st.lockedSchedules.erase sid,
              execLog := st.execLog.map
                (finalizeRec sid .succeeded none now),
              videoStore := res.2,
              notifStore := notifyAll dispatch now st.notifStore res.1 }
      else st

/-- The per-schedule mutual-exclusion invariant: at most one execution
cycle per schedule is in the LockAcquired-or-later state. -/
abbrev AtMostOneCycle (st : SysState) : Prop :=
  ∀ sid, st.lockedSchedules.count sid ≤ 1

/-- C8: for every response accepted by the system-variables schema, the
admin transformation returns exactly three entries, in the fixed order
monitored page URL, Telegram channel ID, Telegram bot token; each
entry's value and configured flag equal the response field's value and
is_set, and only the bot token entry has type password. -/
theorem transformToUIFormat_spec (response : SystemVariablesResponse) :
    transformToUIFormat response =
      [ ⟨"Monitoring Video Page URL",
          response.monitored_video_page_url.value,
          response.monitored_video_page_url.is_set, .text⟩,
        ⟨"Telegram Channel ID",
          response.telegram_channel_id.value,
          response.telegram_channel_id.is_set, .text⟩,
        ⟨"Telegram Bot Token",
          response.telegram_bot_token.value,
          response.telegram_bot_token.is_set, .password⟩ ] ∧
    (transformToUIFormat response).length = 3 ∧
    (transformToUIFormat response).map (·.type) =
      [.text, .text, .password] := by
  refine ⟨rfl, rfl, rfl⟩

/-- C10: togglePasswordVisibility is an involution on the
visible-passwords set, and a single toggle changes membership of
exactly the toggled index and no other. -/
theorem togglePasswordVisibility_involution (s : Finset ℕ) (i : ℕ) :
    togglePasswordVisibility (togglePasswordVisibility s i) i = s ∧
    (∀ j : ℕ, j ∈ togglePasswordVisibility s i ↔
      (if j = i then i ∉ s else j ∈ s)) := by
  constructor
  · unfold togglePasswordVisibility
    by_cases h : i ∈ s
    · simp only [h, if_true, Finset.mem_erase, ne_eq, not_true_eq_false,
        false_and, if_false]
      exact Finset.insert_erase h
    · simp only [h, if_false, Finset.mem_insert, true_or, if_true]
      exact Finset.erase_insert h
  · intro j
    unfold togglePasswordVisibility
    by_cases h : i ∈ s
    · simp only [h, if_true, Finset.mem_erase, ne_eq]
      by_cases hj : j = i
      · subst hj; simp [h]
      · simp [hj]
    · simp only [h, if_false, Finset.mem_insert]
      by_cases hj : j = i
      · subst hj; simp [h]
      · simp [hj]

/-- C9: fetchSystemVariables either returns the transformed variable
list or fails with a SystemVariablesAPIError — no other exception
escapes: a non-ok HTTP response yields an error carrying that
response's status code, and any other failure (network throw, JSON
parse throw, schema validation throw) is wrapped into an error without
a status code; every error carrying a status code came from a non-ok
response. -/
theorem fetchSystemVariables_error_spec {J : Type}
    (fetchResult : StepResult (HttpResponse J))
    (parse : J → StepResult SystemVariablesResponse) :
    (∀ resp, fetchResult = .ok resp → resp.ok = false →
      fetchSystemVariables fetchResult parse =
        .error ⟨"API request failed: " ++ resp.statusText,
                some resp.status⟩) ∧
    (∀ msg, fetchResult = .throw msg →
      fetchSystemVariables fetchResult parse =
        .error ⟨"Failed to fetch system variables: " ++ msg, none⟩) ∧
    (∀ resp msg, fetchResult = .ok resp → resp.ok = true →
      resp.json = .throw msg →
      fetchSystemVariables fetchResult parse =
        .error ⟨"Failed to fetch system variables: " ++ msg, none⟩) ∧
    (∀ resp j msg, fetchResult = .ok resp → resp.ok = true →
      resp.json = .ok j → parse j = .throw msg →
      fetchSystemVariables fetchResult parse =
        .error ⟨"Failed to fetch system variables: " ++ msg, none⟩) ∧
    (∀ e, fetchSystemVariables fetchResult parse = .error e →
      ∀ c, e.statusCode = some c →
        ∃ resp, fetchResult = .ok resp ∧ resp.ok = false ∧
          c = resp.status) := by
  refine ⟨?_, ?_, ?_, ?_, ?_⟩
  · intro resp h1 h2
    subst h1
    simp [fetchSystemVariables, h2]
  · intro msg h1
    subst h1
    simp [fetchSystemVariables]
  · intro resp msg h1 h2 h3
    subst h1
    simp [fetchSystemVariables, h2, h3]
  · intro resp j msg h1 h2 h3 h4
    subst h1
    simp [fetchSystemVariables, h2, h3, h4]
  · intro e he c hc
    match h1 : fetchResult with
    | .throw m =>
        simp [fetchSystemVariables] at he
        rw [← he] at hc
        simp at hc
    | .ok resp =>
        by_cases h2 : resp.ok
        · match h3 : resp.json with
          | .throw m =>
              simp [fetchSystemVariables, h2, h3] at he
              rw [← he] at hc
              simp at hc
          | .ok j =>
              match h4 : parse j with
              | .throw m =>
                  simp [fetchSystemVariables, h2, h3, h4] at he
                  rw [← he] at hc
                  simp at hc
              | .ok d =>
                  simp [fetchSystemVariables, h2, h3, h4] at he
        · simp only [Bool.not_eq_true] at h2
          simp [fetchSystemVariables, h2] at he
          rw [← he] at hc
          simp at hc
          exact ⟨resp, rfl, h2, hc.symm⟩

/-- Witness: a concrete non-ok response makes fetchSystemVariables
fail with the response's status code. -/
theorem fetchSystemVariables_error_spec_witness :
    fetchSystemVariables
        (StepResult.ok
          (⟨false, 500, "Internal Server Error", .throw "x"⟩ :
            HttpResponse Unit))
        (fun _ => .throw "p") =
      .error ⟨"API request failed: " ++ "Internal Server Error",
              some 500⟩ :=
  (fetchSystemVariables_error_spec
      (StepResult.ok
        (⟨false, 500, "Internal Server Error", .throw "x"⟩ :
          HttpResponse Unit))
      (fun _ => .throw "p")).1 _ rfl rfl

/-- C1: every operation of the Schedule Store preserves the invariant
that at most one Schedule has `is_active = true`, system-wide, and the
empty store satisfies it — so it holds in every reachable state. -/
theorem singleActive_preserved (st : ScheduleStore) (h : SingleActive st) :
    SingleActive emptyStore ∧
    (∀ url interval now, SingleActive (activate st url interval now).1) ∧
    (∀ sid, SingleActive (deactivate st sid)) ∧
    (∀ sid, SingleActive (delete_history st sid).1) := by
  refine ⟨by decide, ?_, ?_, ?_⟩
  · intro url interval now
    unfold activate
    by_cases hany : st.schedules.any (·.is_active)
    · simpa [hany] using h
    · by_cases hiv : interval ≤ 0
      · simpa [hany, hiv] using h
      · simp only [hany, Bool.false_eq_true, if_false, hiv, if_false]
        have hz : st.schedules.countP (·.is_active) = 0 := by
          rw [List.countP_eq_zero]
          intro a ha
          simp only [Bool.not_eq_true]
          by_contra hc
          simp only [Bool.not_eq_false] at hc
          exact hany (List.any_eq_true.mpr ⟨a, ha, hc⟩)
        show List.countP _ _ ≤ 1
        simp [List.countP_cons, hz]
  · intro sid
    show List.countP _ _ ≤ 1
    unfold deactivate
    simp only [List.countP_map]
    calc st.schedules.countP
          ((·.is_active) ∘ fun s =>
            if s.id = sid then { s with is_active := false } else s)
        ≤ st.schedules.countP (·.is_active) := by
          apply List.countP_mono_left
          intro a _ hpa
          simp only [Function.comp] at hpa
          by_cases hid : a.id = sid
          · simp [hid] at hpa
          · simpa [hid] using hpa
      _ ≤ 1 := h
  · intro sid
    unfold delete_history
    by_cases hc : st.schedules.any (fun s => s.id == sid && s.is_active)
    · simpa [hc] using h
    · simp only [hc, Bool.false_eq_true, if_false]
      show List.countP _ _ ≤ 1
      exact le_trans ((List.filter_sublist _).countP_le _) h

/-- Witness: activating on the empty store (which satisfies the
invariant) yields a store satisfying the invariant. -/
theorem singleActive_preserved_witness :
    SingleActive (activate emptyStore "https://example.com" 5 0).1 :=
  (singleActive_preserved emptyStore (by decide)).2.1
    "https://example.com" 5 0

/-- C7: whenever some Schedule is active, activate fails with
ConflictError and is atomic — the Schedule Store after the failed call
equals the store before it. -/
theorem activate_conflict_atomic (st : ScheduleStore)
    (h : ∃ s ∈ st.schedules, s.is_active = true)
    (url : String) (interval : Int) (now : Nat) :
    (activate st url interval now).2 = .error .conflict ∧
    (activate st url interval now).1 = st := by
  have hany : st.schedules.any (·.is_active) = true := by
    rw [List.any_eq_true]
    obtain ⟨s, hs, ha⟩ := h
    exact ⟨s, hs, ha⟩
  unfold activate
  simp [hany]

/-- Witness: a concrete store with an active schedule rejects a second
activation with ConflictError, unchanged. -/
theorem activate_conflict_atomic_witness :
    (activate ⟨[⟨0, "https://example.com", 5, true, 0⟩], 1⟩
        "https://other.example" 7 3).2 = .error .conflict ∧
    (activate ⟨[⟨0, "https://example.com", 5, true, 0⟩], 1⟩
        "https://other.example" 7 3).1 =
      ⟨[⟨0, "https://example.com", 5, true, 0⟩], 1⟩ :=
  activate_conflict_atomic ⟨[⟨0, "https://example.com", 5, true, 0⟩], 1⟩
    ⟨⟨0, "https://example.com", 5, true, 0⟩, by simp, rfl⟩
    "https://other.example" 7 3

/-- detect_new preserves dedup-key uniqueness of the Record Store. -/
theorem detect_new_uniqueKeys_aux (sid now : Nat)
    (entries : List RawVideoEntry) :
    ∀ rs : RecordStore, UniqueKeys rs →
      UniqueKeys (detect_new sid now rs entries).2 := by
  induction entries with
  | nil =>
      intro rs h
      exact h
  | cons e rest ih =>
      intro rs h
      by_cases hk : hasKey rs sid e.canonical_url
      · simpa [detect_new, hk] using ih rs h
      · have hnew : UniqueKeys
            (⟨⟨rs.nextId, sid, e.title, e.canonical_url, e.thumbnail,
                e.description, now⟩ :: rs.records,
              rs.nextId + 1⟩ : RecordStore) := by
          refine List.Pairwise.cons ?_ h
          intro b hb hcontra
          apply hk
          unfold hasKey
          rw [List.any_eq_true]
          refine ⟨b, hb, ?_⟩
          simp only [Bool.and_eq_true, beq_iff_eq]
          exact ⟨hcontra.1.symm, hcontra.2.symm⟩
        simpa [detect_new, hk] using ih _ hnew

/-- C2: detect_new preserves the invariant that no two VideoRecords
share the dedup key (schedule id, canonical URL), and silently discards
(no persistence, no error) every entry whose key already exists in the
Record Store. -/
theorem detect_new_spec (sid now : Nat) (rs : RecordStore)
    (h : UniqueKeys rs) :
    (∀ entries, UniqueKeys (detect_new sid now rs entries).2) ∧
    (∀ e rest, hasKey rs sid e.canonical_url = true →
      detect_new sid now rs (e :: rest) = detect_new sid now rs rest) := by
  refine ⟨fun entries => detect_new_uniqueKeys_aux sid now entries rs h, ?_⟩
  intro e rest hk
  simp [detect_new, hk]

/-- Witness: persisting a duplicated entry list into the empty Record
Store leaves the store with unique dedup keys. -/
theorem detect_new_spec_witness :
    UniqueKeys (detect_new 5 1 ⟨[], 0⟩
      [⟨"a", "https://v/1", "t", none⟩,
       ⟨"a", "https://v/1", "t", none⟩]).2 :=
  (detect_new_spec 5 1 ⟨[], 0⟩ List.Pairwise.nil).1
    [⟨"a", "https://v/1", "t", none⟩, ⟨"a", "https://v/1", "t", none⟩]

/-- C3: notify is idempotent on sent videos — when an existing
NotificationRecord with status sent exists for the video id, notify
returns it unchanged, leaves the notification store identical, and
performs zero dispatch calls. -/
theorem notify_idempotent_sent (video : VideoRecord) (ns : NotifStore)
    (dispatch : Nat → DispatchResult) (now : Nat)
    (r : NotificationRecord) (h : findSent ns video.id = some r) :
    notify video ns dispatch now = (r, ns, 0) ∧ r.status = .sent := by
  constructor
  · unfold notify
    rw [h]
  · unfold findSent at h
    have hp := List.find?_some h
    simp only [Bool.and_eq_true, beq_iff_eq] at hp
    exact hp.2

/-- Witness: a concrete store with a sent record for the video makes
notify a no-op returning that record. -/
theorem notify_idempotent_sent_witness :
    notify ⟨42, 7, "t", "https://v/1", "th", none, 5⟩
        ⟨[⟨0, 42, 7, .sent, 1, none, 10⟩], 1⟩ (fun _ => .success) 11 =
      (⟨0, 42, 7, .sent, 1, none, 10⟩,
        ⟨[⟨0, 42, 7, .sent, 1, none, 10⟩], 1⟩, 0) ∧
    (⟨0, 42, 7, .sent, 1, none, 10⟩ : NotificationRecord).status = .sent :=
  notify_idempotent_sent ⟨42, 7, "t", "https://v/1", "th", none, 5⟩
    ⟨[⟨0, 42, 7, .sent, 1, none, 10⟩], 1⟩ (fun _ => .success) 11
    ⟨0, 42, 7, .sent, 1, none, 10⟩ rfl

/-- The retry loop performs at most `fuel` additional attempts. -/
theorem runAttempts_le (dispatch : Nat → DispatchResult) (now : Nat) :
    ∀ fuel r, (runAttempts dispatch now r fuel).1.attemptCount ≤
      r.attemptCount + fuel := by
  intro fuel
  induction fuel with
  | zero =>
      intro r
      simp [runAttempts]
  | succ n ih =>
      intro r
      unfold runAttempts
      match hd : dispatch r.attemptCount with
      | .success =>
          simp only []
          omega
      | .permanent m =>
          simp only []
          omega
      | .transient m =>
          by_cases hn : n = 0
          · subst hn
            simp only [if_true]
            omega
          · simp only [hn, if_false]
            refine le_trans (ih _) ?_
            show r.attemptCount + 1 + n ≤ r.attemptCount + (n + 1)
            omega

/-- With a dispatch failing transiently on every attempt, the retry
loop consumes all its fuel, ends failed, and increments the attempt
count exactly fuel times. -/
theorem runAttempts_transient_eq (dispatch : Nat → DispatchResult)
    (now : Nat) (hd : ∀ k, ∃ m, dispatch k = .transient m) :
    ∀ fuel r, 1 ≤ fuel →
      (runAttempts dispatch now r fuel).1.status = .failed ∧
      (runAttempts dispatch now r fuel).1.attemptCount =
        r.attemptCount + fuel ∧
      (runAttempts dispatch now r fuel).2 = fuel := by
  intro fuel
  induction fuel with
  | zero =>
      intro r h
      omega
  | succ n ih =>
      intro r _
      obtain ⟨m, hm⟩ := hd r.attemptCount
      by_cases hn : n = 0
      · subst hn
        simp [runAttempts, hm]
      · have h1 : 1 ≤ n := Nat.one_le_iff_ne_zero.mpr hn
        unfold runAttempts
        simp only [hm, hn, if_false]
        obtain ⟨hs, ha, hc⟩ := ih
          { r with attemptCount := r.attemptCount + 1,
                   errorDetail := some m, lastAttemptAt := now } h1
        refine ⟨hs, ?_, ?_⟩
        · rw [ha]
          show r.attemptCount + 1 + n = r.attemptCount + (n + 1)
          omega
        · rw [hc]

/-- C4: for a video whose dispatch fails transiently on every attempt,
notify performs exactly 3 dispatch calls (the retry bound) and ends
with a terminal failed NotificationRecord whose attempt count is 3;
for any dispatch behaviour the attempt count never exceeds the
bound. -/
theorem notify_retry_bound (video : VideoRecord) (ns : NotifStore)
    (dispatch : Nat → DispatchResult) (now : Nat)
    (hfresh : findSent ns video.id = none)
    (hd : ∀ k, ∃ m, dispatch k = .transient m) :
    (notify video ns dispatch now).1.status = .failed ∧
    (notify video ns dispatch now).1.attemptCount = 3 ∧
    (notify video ns dispatch now).2.2 = 3 ∧
    (∀ d : Nat → DispatchResult,
      (notify video ns d now).1.attemptCount ≤ maxAttempts) := by
  obtain ⟨hs, ha, hc⟩ := runAttempts_transient_eq dispatch now hd maxAttempts
    ⟨ns.nextId, video.id, video.schedule_id, .pending, 0, none, now⟩
    (by decide)
  refine ⟨?_, ?_, ?_, ?_⟩
  · simpa [notify, hfresh] using hs
  · simpa [notify, hfresh, maxAttempts] using ha
  · simpa [notify, hfresh, maxAttempts] using hc
  · intro d
    have hle := runAttempts_le d now maxAttempts
      ⟨ns.nextId, video.id, video.schedule_id, .pending, 0, none, now⟩
    simpa [notify, hfresh] using hle

/-- Witness: three transient server errors in a row end in failed with
attempt count 3. -/
theorem notify_retry_bound_witness :
    (notify ⟨1, 7, "t", "https://v/1", "th", none, 5⟩ ⟨[], 0⟩
        (fun _ => .transient "503") 6).1.status = .failed ∧
    (notify ⟨1, 7, "t", "https://v/1", "th", none, 5⟩ ⟨[], 0⟩
        (fun _ => .transient "503") 6).1.attemptCount = 3 ∧
    (notify ⟨1, 7, "t", "https://v/1", "th", none, 5⟩ ⟨[], 0⟩
        (fun _ => .transient "503") 6).2.2 = 3 :=
  have h := notify_retry_bound ⟨1, 7, "t", "https://v/1", "th", none, 5⟩
    ⟨[], 0⟩ (fun _ => .transient "503") 6 rfl (fun _ => ⟨"503", rfl⟩)
  ⟨h.1, h.2.1, h.2.2.1⟩

/-- C5: the orchestrator step preserves the invariant that at most one
execution cycle per schedule is in the LockAcquired-or-later state, and
a trigger arriving while a cycle is still running for that schedule
appends an ExecutionRecord with status skipped, creates no
VideoRecords, and acquires no lock. -/
theorem overlap_skipped (st : SysState) (h : AtMostOneCycle st) :
    (∀ ev, AtMostOneCycle (step st ev)) ∧
    (∀ sid now, sid ∈ st.lockedSchedules →
      (step st (.trigger sid now)).execLog =
        st.execLog ++
          [⟨st.nextExecId, sid, now, some now, .skipped, none⟩] ∧
      (step st (.trigger sid now)).videoStore = st.videoStore ∧
      (step st (.trigger sid now)).lockedSchedules =
        st.lockedSchedules) := by
  constructor
  · intro ev
    cases ev with
    | trigger sid now =>
        by_cases hm : sid ∈ st.lockedSchedules
        · intro s
          simpa [step, hm] using h s
        · intro s
          simp only [step, hm, if_false]
          rw [List.count_cons]
          by_cases hs : s = sid
          · subst hs
            have : st.lockedSchedules.count s = 0 :=
              List.count_eq_zero.mpr hm
            simp [this]
          · simp only [beq_iff_eq]
            have hne : ¬(sid = s) := fun hcontra => hs hcontra.symm
            simpa [hne] using h s
    | finish sid outcome dispatch now =>
        by_cases hm : sid ∈ st.lockedSchedules
        · cases outcome with
          | err cause =>
              intro s
              simp only [step, hm, if_true]
              exact le_trans
                (List.Sublist.count_le (List.erase_sublist _ _) s) (h s)
          | ok entries =>
              intro s
              simp only [step, hm, if_true]
              exact le_trans
                (List.Sublist.count_le (List.erase_sublist _ _) s) (h s)
        · intro s
          simpa [step, hm] using h s
  · intro sid now hm
    refine ⟨?_, ?_, ?_⟩ <;> simp [step, hm]

/-- Witness: a concrete trigger while schedule 7's cycle is running is
recorded as skipped, creates no VideoRecords and leaves the lock
untouched; the mutual-exclusion bound holds afterwards. -/
theorem overlap_skipped_witness :
    ((step ⟨[7], [⟨0, 7, 0, none, .running, none⟩], ⟨[], 0⟩, ⟨[], 0⟩, 1⟩
        (.trigger 7 4)).execLog =
      [⟨0, 7, 0, none, .running, none⟩] ++
        [⟨1, 7, 4, some 4, .skipped, none⟩] ∧
    (step ⟨[7], [⟨0, 7, 0, none, .running, none⟩], ⟨[], 0⟩, ⟨[], 0⟩, 1⟩
        (.trigger 7 4)).videoStore = ⟨[], 0⟩ ∧
    (step ⟨[7], [⟨0, 7, 0, none, .running, none⟩], ⟨[], 0⟩, ⟨[], 0⟩, 1⟩
        (.trigger 7 4)).lockedSchedules = [7]) ∧
    (step ⟨[7], [⟨0, 7, 0, none, .running, none⟩], ⟨[], 0⟩, ⟨[], 0⟩, 1⟩
        (.trigger 7 4)).lockedSchedules.count 7 ≤ 1 :=
  have hinv : AtMostOneCycle
      ⟨[7], [⟨0, 7, 0, none, .running, none⟩], ⟨[], 0⟩, ⟨[], 0⟩, 1⟩ := by
    intro s
    by_cases hs : s = 7 <;> simp [List.count_cons, hs]
  ⟨(overlap_skipped _ hinv).2 7 4 (by simp),
   (overlap_skipped _ hinv).1 (.trigger 7 4) 7⟩

/-- C6: finalizing a cycle whose extraction failed (any cause,
including timeout) leaves the video Record Store and the notification
store untouched — deduplication and notification are never reached —
and finalizes the cycle's running ExecutionRecord to failed carrying
the cause. -/
theorem extraction_failure_spec (st : SysState) (sid : Nat)
    (cause : ExtractCause) (dispatch : Nat → Nat → DispatchResult)
    (now : Nat) (h : sid ∈ st.lockedSchedules) :
    (step st (.finish sid (.err cause) dispatch now)).videoStore =
      st.videoStore ∧
    (step st (.finish sid (.err cause) dispatch now)).notifStore =
      st.notifStore ∧
    (step st (.finish sid (.err cause) dispatch now)).execLog =
      st.execLog.map (finalizeRec sid .failed (some cause) now) ∧
    (∀ r ∈ st.execLog, r.schedule_id = sid → r.status = .running →
      finalizeRec sid .failed (some cause) now r =
        { r with status := .failed, endedAt := some now,
                 errorDetail := some cause }) := by
  refine ⟨?_, ?_, ?_, ?_⟩
  · simp [step, h]
  · simp [step, h]
  · simp [step, h]
  · intro r _ h1 h2
    simp [finalizeRec, h1, h2]

/-- Witness: a concrete timed-out extraction finalizes the running
record as failed with cause timeout and creates nothing. -/
theorem extraction_failure_spec_witness :
    (step ⟨[7], [⟨0, 7, 0, none, .running, none⟩], ⟨[], 0⟩, ⟨[], 0⟩, 1⟩
        (.finish 7 (.err .timeout) (fun _ _ => .success) 9)).videoStore =
      ⟨[], 0⟩ ∧
    (step ⟨[7], [⟨0, 7, 0, none, .running, none⟩], ⟨[], 0⟩, ⟨[], 0⟩, 1⟩
        (.finish 7 (.err .timeout) (fun _ _ => .success) 9)).notifStore =
      ⟨[], 0⟩ ∧
    finalizeRec 7 .failed (some .timeout) 9 ⟨0, 7, 0, none, .running, none⟩ =
      ⟨0, 7, 0, some 9, .failed, some .timeout⟩ :=
  have h := extraction_failure_spec
    ⟨[7], [⟨0, 7, 0, none, .running, none⟩], ⟨[], 0⟩, ⟨[], 0⟩, 1⟩
    7 .timeout (fun _ _ => .success) 9 (by simp)
  ⟨h.1, h.2.1,
    h.2.2.2 ⟨0, 7, 0, none, .running, none⟩ (by simp) rfl rfl⟩

end VideoAlert
